import Mathlib

/-
Verification of the deferred-interrupt demo (src/src/main.cpp):
a periodic hardware-timer ISR (`onTimer`) toggles a LED, stores one ADC
sample into the shared slot `val`, and gives a binary semaphore; the
consumer task (`printValues`) blocks on the semaphore, converts the sample
to volts and prints it; `setup` performs the bring-up in a fixed order.

The embedding is a shallow one: the shared machine state is a record, every
hardware/RTOS call both updates the record and appends an observable event
to a trace, and the C functions become Lean functions on that record.
-/

namespace Esp32TimerDemo

/-- Index of the application CPU core (`APP_CPU_NUM` from soc.h, quoted in
the header comment of main.cpp). -/
def APP_CPU_NUM : Nat := 1

/-- GPIO number of the LED driver pin (`pinLed = GPIO_NUM_23`). -/
def pinLed : Nat := 23

/-- GPIO number of the analog channel (`pinAdc = GPIO_NUM_34`). -/
def pinAdc : Nat := 34

/-- Hardware-timer divider (`timer_divider`), for a 1 us tick. -/
def timer_divider : Nat := 80

/-- Hardware-timer alarm count (`timer_max_count`), 100 ms at 1 us/tick. -/
def timer_max_count : Nat := 100000

/-- FreeRTOS tick rate in Hz on the ESP32 Arduino core, used by
`pdMS_TO_TICKS`. -/
def configTICK_RATE_HZ : Nat := 1000

/-- `pdMS_TO_TICKS(ms)`: milliseconds to scheduler ticks. -/
def pdMS_TO_TICKS (ms : Nat) : Nat := ms * configTICK_RATE_HZ / 1000

/-- `portMAX_DELAY`: the timeout value meaning an unbounded blocking wait. -/
def portMAX_DELAY : Nat := 4294967295

/-- State of the binary semaphore `bin_sem`: whether it is currently
signaled, and whether the (single) consumer task is blocked waiting on it. -/
structure Sem where
  signaled : Bool
  waiting : Bool
  deriving DecidableEq

/-- Observable events: every hardware or RTOS call made by the ISR or by the
consumer task appends one of these to the trace. -/
inductive Ev where
  | digitalRead (level : Bool)
  | digitalWrite (level : Bool)
  | analogRead (value : Nat)
  | storeVal (value : Nat)
  | semGive
  | portYield
  | semTake (timeout : Nat)
  | emitLine (text : String)
  deriving DecidableEq

/-- The shared machine state: the LED pin's last-written level, the sample
slot `val`, the binary semaphore `bin_sem`, and the event trace so far. -/
structure HW where
  pinLed : Bool
  val : Nat
  sem : Sem
  trace : List Ev
  deriving DecidableEq

/-- `digitalRead(pinLed)`: return the LED pin's current level. -/
def hwDigitalRead (h : HW) : Bool × HW :=
  (h.pinLed, { h with trace := h.trace ++ [Ev.digitalRead h.pinLed] })

/-- `digitalWrite(pinLed, level)`: drive the LED pin to `level`. -/
def hwDigitalWrite (level : Bool) (h : HW) : HW :=
  { h with pinLed := level, trace := h.trace ++ [Ev.digitalWrite level] }

/-- `analogRead(pinAdc)`: one synchronous ADC sample; the environment
supplies the raw value `adc` that the converter returns. -/
def hwAnalogRead (adc : Nat) (h : HW) : Nat × HW :=
  (adc, { h with trace := h.trace ++ [Ev.analogRead adc] })

/-- The assignment `val = ...`: overwrite the shared sample slot. -/
def hwStoreVal (v : Nat) (h : HW) : HW :=
  { h with val := v, trace := h.trace ++ [Ev.storeVal v] }

/-- `xSemaphoreGiveFromISR` on the semaphore state alone: the semaphore
becomes signaled; the returned flag (`task_woken`) is true exactly when a
blocked consumer was made runnable by this give. A give on an
already-signaled semaphore (which, by the single-waiter discipline, has no
waiter) leaves the state unchanged. -/
def xSemaphoreGiveFromISR (s : Sem) : Sem × Bool :=
  if s.waiting then ({ signaled := true, waiting := false }, true)
  else ({ signaled := true, waiting := s.waiting }, false)

/-- `xSemaphoreGiveFromISR(bin_sem, &task_woken)` on the machine state. -/
def hwSemGiveFromISR (h : HW) : Bool × HW :=
  let sw := xSemaphoreGiveFromISR h.sem
  (sw.2, { h with sem := sw.1, trace := h.trace ++ [Ev.semGive] })

/-- `portYIELD_FROM_ISR()`: request an immediate rescheduling check on exit
from interrupt context. -/
def hwPortYield (h : HW) : HW :=
  { h with trace := h.trace ++ [Ev.portYield] }

/-- The timer ISR `onTimer`: toggle the LED (read the level, write back its
negation), store one ADC sample into `val`, give `bin_sem`, and request a
context switch iff the give woke the consumer. `adc` is the raw value the
ADC returns on this invocation. -/
def onTimer (adc : Nat) (h : HW) : HW :=
  let rh := hwDigitalRead h
  let pin_state := rh.1
  let h1 := hwDigitalWrite (!pin_state) rh.2
  let ah := hwAnalogRead adc h1
  let h2 := hwStoreVal ah.1 ah.2
  let gh := hwSemGiveFromISR h2
  let task_woken := gh.1
  if task_woken then hwPortYield gh.2 else gh.2

/-- A run of consecutive timer interrupts with the given ADC readings,
with no consumer activity in between. -/
def runISR (inputs : List Nat) (h : HW) : HW :=
  inputs.foldl (fun h adc => onTimer adc h) h

/-- The conversion in `printValues`: `volt = (float) val * 3.3 / 4096.0`,
modelled in exact rational arithmetic. -/
def voltOf (raw : Nat) : ℚ := (raw : ℚ) * (33 / 10) / 4096

/-- The decimal digit character for `d % 10`. -/
def digitChar (d : Nat) : Char := Char.ofNat (48 + d % 10)

/-- The three decimal digits of `n` (hundreds, tens, units), zero-padded. -/
def pad3 (n : Nat) : String :=
  String.mk [digitChar (n / 100), digitChar (n / 10), digitChar n]

/-- `Serial.println(volt, 3)`: render a nonnegative value with exactly 3
fractional digits, rounding to nearest as `Print::printFloat` does. -/
def fmt3 (q : ℚ) : String :=
  let m : Nat := (Rat.floor (q * 1000 + 1 / 2)).toNat
  toString (m / 1000) ++ "." ++ pad3 (m % 1000)

/-- One iteration of the infinite `while (1)` body of `printValues`:
`xSemaphoreTake(bin_sem, portMAX_DELAY)` (recording the timeout used), then
— once the semaphore is signaled — clear it, convert the slot value and
print one line. If the semaphore is not signaled the take blocks: the task
is recorded as waiting and nothing else happens. A `none` result would mean
the loop body exited; the body has no exit path. -/
def printValuesIter (h : HW) : Option HW :=
  let h1 := { h with trace := h.trace ++ [Ev.semTake portMAX_DELAY] }
  if h1.sem.signaled then
    let h2 := { h1 with sem := { h1.sem with signaled := false } }
    some { h2 with trace := h2.trace ++ [Ev.emitLine (fmt3 (voltOf h2.val))] }
  else
    some { h1 with sem := { h1.sem with waiting := true } }

/-- Arguments of a `xTaskCreatePinnedToCore` call. -/
structure TaskArgs where
  entry : String
  name : String
  stackDepth : Nat
  params : Option Unit
  priority : Nat
  core : Nat
  deriving DecidableEq

/-- The arguments of the `xTaskCreatePinnedToCore` call in `setup`. -/
def printValuesTaskArgs : TaskArgs :=
  { entry := "printValues", name := "Print values", stackDepth := 1024,
    params := none, priority := 2, core := APP_CPU_NUM }

/-- Priority of the Arduino `loopTask` that runs `setup` and `loop`
(priority 1; the source comment reads "Main (sul core 1, con priorita 1)"). -/
def loopTaskPriority : Nat := 1

/-- Bring-up events: the calls `setup` performs, in order. -/
inductive SetupEv where
  | serialBegin (baud : Nat)
  | vTaskDelay (ticks : Nat)
  | println (msg : String)
  | semCreate
  | restart
  | taskCreate (args : TaskArgs)
  | pinMode (pin : Nat) (outputMode : Bool)
  | timerBegin (num : Nat) (divider : Nat) (countUp : Bool)
  | timerAttachInterrupt (edge : Bool)
  | timerAlarmWrite (count : Nat) (autoreload : Bool)
  | timerAlarmEnable
  deriving DecidableEq

/-- The bring-up sequence `setup`, as the ordered list of the calls it
performs. `semOk` is whether `xSemaphoreCreateBinary` returns a valid
handle; when it does not, `ESP.restart()` reboots the device, so nothing
after the restart runs. -/
def setup (semOk : Bool) : List SetupEv :=
  [SetupEv.serialBegin 115200,
   SetupEv.vTaskDelay (pdMS_TO_TICKS 1000),
   SetupEv.println "",
   SetupEv.println "FreeRTOS Software timer: demo 3 - interrupt differito con semaforo",
   SetupEv.semCreate] ++
  if !semOk then
    [SetupEv.println "ERRORE: impossibile creare il semaforo",
     SetupEv.restart]
  else
    [SetupEv.taskCreate printValuesTaskArgs,
     SetupEv.pinMode pinLed true,
     SetupEv.timerBegin 0 timer_divider true,
     SetupEv.timerAttachInterrupt true,
     SetupEv.timerAlarmWrite timer_max_count true,
     SetupEv.timerAlarmEnable]

/-- `loop()`: the Arduino idle loop body, which is empty. -/
def loop (h : HW) : HW := h

/-- Predicate picking out `storeVal` events. -/
def isStoreVal : Ev → Bool
  | Ev.storeVal _ => true
  | _ => false

/-- Predicate picking out `semGive` events. -/
def isSemGive : Ev → Bool
  | Ev.semGive => true
  | _ => false

/-- Predicate picking out `serialBegin` bring-up events. -/
def isSerialBegin : SetupEv → Bool
  | SetupEv.serialBegin _ => true
  | _ => false

/-- Predicate picking out `vTaskDelay` bring-up events. -/
def isVTaskDelay : SetupEv → Bool
  | SetupEv.vTaskDelay _ => true
  | _ => false

/-- Predicate picking out the semaphore-creation bring-up event. -/
def isSemCreate : SetupEv → Bool
  | SetupEv.semCreate => true
  | _ => false

/-- Predicate picking out task-creation bring-up events. -/
def isTaskCreate : SetupEv → Bool
  | SetupEv.taskCreate _ => true
  | _ => false

/-- Predicate picking out `pinMode` bring-up events. -/
def isPinMode : SetupEv → Bool
  | SetupEv.pinMode _ _ => true
  | _ => false

/-- Predicate picking out any hardware-timer bring-up event
(`timerBegin`, `timerAttachInterrupt`, `timerAlarmWrite`,
`timerAlarmEnable`). -/
def isTimerEv : SetupEv → Bool
  | SetupEv.timerBegin _ _ _ => true
  | SetupEv.timerAttachInterrupt _ => true
  | SetupEv.timerAlarmWrite _ _ => true
  | SetupEv.timerAlarmEnable => true
  | _ => false

/-- Predicate picking out the `timerBegin` bring-up event. -/
def isTimerBegin : SetupEv → Bool
  | SetupEv.timerBegin _ _ _ => true
  | _ => false

/-- Predicate picking out the `timerAlarmEnable` bring-up event. -/
def isAlarmEnable : SetupEv → Bool
  | SetupEv.timerAlarmEnable => true
  | _ => false

/-- Predicate picking out the restart event. -/
def isRestart : SetupEv → Bool
  | SetupEv.restart => true
  | _ => false

/-- Predicate picking out the semaphore-failure diagnostic message. -/
def isErrPrintln (e : SetupEv) : Bool :=
  e == SetupEv.println "ERRORE: impossibile creare il semaforo"

/-- The events appended to the trace by one ISR invocation: the LED
read/write pair, the ADC read and slot store, the semaphore give, and the
yield request exactly when a consumer was blocked. -/
theorem onTimer_trace (adc : Nat) (h : HW) :
    (onTimer adc h).trace =
      h.trace ++
        ([Ev.digitalRead h.pinLed, Ev.digitalWrite (!h.pinLed),
          Ev.analogRead adc, Ev.storeVal adc, Ev.semGive] ++
          if h.sem.waiting then [Ev.portYield] else []) := by
  cases hw : h.sem.waiting <;>
    simp [onTimer, hwDigitalRead, hwDigitalWrite, hwAnalogRead, hwStoreVal,
      hwSemGiveFromISR, xSemaphoreGiveFromISR, hwPortYield, hw]

/-- One ISR invocation toggles the LED pin level. -/
theorem onTimer_pinLed (adc : Nat) (h : HW) :
    (onTimer adc h).pinLed = !h.pinLed := by
  cases hw : h.sem.waiting <;>
    simp [onTimer, hwDigitalRead, hwDigitalWrite, hwAnalogRead, hwStoreVal,
      hwSemGiveFromISR, xSemaphoreGiveFromISR, hwPortYield, hw]

/-- One ISR invocation overwrites the slot with the fresh ADC sample. -/
theorem onTimer_val (adc : Nat) (h : HW) :
    (onTimer adc h).val = adc := by
  cases hw : h.sem.waiting <;>
    simp [onTimer, hwDigitalRead, hwDigitalWrite, hwAnalogRead, hwStoreVal,
      hwSemGiveFromISR, xSemaphoreGiveFromISR, hwPortYield, hw]

/-- After one ISR invocation the semaphore is signaled and no consumer is
still recorded as blocked. -/
theorem onTimer_sem (adc : Nat) (h : HW) :
    (onTimer adc h).sem = { signaled := true, waiting := false } := by
  cases hw : h.sem.waiting <;>
    simp [onTimer, hwDigitalRead, hwDigitalWrite, hwAnalogRead, hwStoreVal,
      hwSemGiveFromISR, xSemaphoreGiveFromISR, hwPortYield, hw]

/-- Unfolding a run of ISR invocations at its last input. -/
theorem runISR_concat (l : List Nat) (a : Nat) (h : HW) :
    runISR (l ++ [a]) h = onTimer a (runISR l h) := by
  simp [runISR, List.foldl_append]

/-- After a nonempty run of ISR invocations the slot holds the last sample
and the semaphore is signaled with no recorded waiter. -/
theorem runISR_getLast (inputs : List Nat) (v : Nat) (h : HW)
    (hv : inputs.getLast? = some v) :
    (runISR inputs h).val = v ∧
      (runISR inputs h).sem = { signaled := true, waiting := false } := by
  induction inputs using List.reverseRecOn with
  | nil => simp at hv
  | append_singleton l a _ =>
    rw [List.getLast?_concat] at hv
    cases hv
    rw [runISR_concat]
    exact ⟨onTimer_val v _, onTimer_sem v _⟩

/-- C1: on every invocation, `onTimer` performs exactly, and in this order:
read the LED level and write back its negation; one ADC read stored into
the sample slot `val` (overwriting it); the give of the binary semaphore;
and a rescheduling request iff the give made a blocked consumer runnable.
In particular the slot write strictly precedes the semaphore give. -/
theorem claim_C1_onTimer_steps (adc : Nat) (h : HW) :
    (onTimer adc h).trace =
      h.trace ++
        ([Ev.digitalRead h.pinLed, Ev.digitalWrite (!h.pinLed),
          Ev.analogRead adc, Ev.storeVal adc, Ev.semGive] ++
          if h.sem.waiting then [Ev.portYield] else []) ∧
    (onTimer adc h).pinLed = !h.pinLed ∧
    (onTimer adc h).val = adc ∧
    (onTimer adc h).sem.signaled = true ∧
    (Ev.portYield ∈ ((onTimer adc h).trace.drop h.trace.length) ↔
      h.sem.waiting = true) ∧
    ((onTimer adc h).trace.drop h.trace.length).findIdx isStoreVal <
      ((onTimer adc h).trace.drop h.trace.length).findIdx isSemGive := by
  refine ⟨onTimer_trace adc h, onTimer_pinLed adc h, onTimer_val adc h, ?_, ?_, ?_⟩
  · rw [onTimer_sem]
  · rw [onTimer_trace, List.drop_left]
    cases hw : h.sem.waiting <;> simp [hw]
  · rw [onTimer_trace, List.drop_left]
    cases hw : h.sem.waiting <;>
      simp [hw, List.findIdx_cons, isStoreVal, isSemGive]

/-- `Rat.floor` agrees with the mathematical floor on ℚ. -/
theorem ratFloor_eq (q : ℚ) : Rat.floor q = ⌊q⌋ := by
  rw [Rat.floor_def', Rat.floor_def]

/-- The quantity whose floor `fmt3` takes, written as a quotient of
naturals: `voltOf raw * 1000 + 1/2 = (raw * 6600 + 4096) / 8192`. -/
theorem voltOf_scaled (raw : Nat) :
    voltOf raw * 1000 + 1 / 2 =
      ((raw * 6600 + 4096 : ℕ) : ℚ) / ((8192 : ℕ) : ℚ) := by
  unfold voltOf
  push_cast
  field_simp
  ring

/-- The printed text for a raw sample, computed in natural-number
arithmetic: the rounded millivolt count is `(raw * 6600 + 4096) / 8192`. -/
theorem fmt3_voltOf (raw : Nat) :
    fmt3 (voltOf raw) =
      toString ((raw * 6600 + 4096) / 8192 / 1000) ++ "." ++
        pad3 ((raw * 6600 + 4096) / 8192 % 1000) := by
  unfold fmt3
  rw [ratFloor_eq, voltOf_scaled, Rat.floor_natCast_div_natCast]
  have h : ((raw * 6600 + 4096 : ℕ) / (8192 : ℕ) : ℤ).toNat =
      (raw * 6600 + 4096) / 8192 := by omega
  simp only [h]

/-- C2: the consumer converts each raw sample by the fixed linear formula
`raw * 3.3 / 4096` and prints it with exactly 3 fractional digits; raw 0
prints as `0.000` and raw 4096 prints as `3.300`. -/
theorem claim_C2_conversion :
    (∀ h : HW, h.sem.signaled = true →
      printValuesIter h = some { h with
        sem := { signaled := false, waiting := h.sem.waiting },
        trace := h.trace ++ [Ev.semTake portMAX_DELAY,
                             Ev.emitLine (fmt3 (voltOf h.val))] }) ∧
    fmt3 (voltOf 0) = "0.000" ∧
    fmt3 (voltOf 4096) = "3.300" ∧
    ∀ raw : Nat, ∃ a b : String,
      fmt3 (voltOf raw) = a ++ "." ++ b ∧ b.length = 3 := by
  refine ⟨?_, ?_, ?_, ?_⟩
  · intro h hs
    simp [printValuesIter, hs]
  · rw [fmt3_voltOf]; decide
  · rw [fmt3_voltOf]; decide
  · intro raw
    refine ⟨toString ((raw * 6600 + 4096) / 8192 / 1000),
      pad3 ((raw * 6600 + 4096) / 8192 % 1000), fmt3_voltOf raw, rfl⟩

/-- Witness for C2 at the concrete state with slot value 1024 and a
signaled semaphore: one take and one printed line `0.825`. -/
theorem claim_C2_witness :
    printValuesIter ⟨false, 1024, ⟨true, false⟩, []⟩ =
      some ⟨false, 1024, ⟨false, false⟩,
        [Ev.semTake portMAX_DELAY, Ev.emitLine (fmt3 (voltOf 1024))]⟩ :=
  claim_C2_conversion.1 ⟨false, 1024, ⟨true, false⟩, []⟩ rfl

/-- C9: every sample the 12-bit converter can actually produce (0..4095)
converts strictly below full scale 3.3. -/
theorem claim_C9_full_scale_unreachable (raw : Nat) (hraw : raw ≤ 4095) :
    voltOf raw < 33 / 10 := by
  unfold voltOf
  have hr : (raw : ℚ) ≤ 4095 := by exact_mod_cast hraw
  rw [div_lt_iff₀ (by norm_num : (0 : ℚ) < 4096)]
  nlinarith

/-- Witness for C9 at the largest producible sample. -/
theorem claim_C9_witness : 4095 ≤ 4095 ∧ voltOf 4095 < 33 / 10 :=
  ⟨by decide, claim_C9_full_scale_unreachable 4095 (by decide)⟩

/-- C8: the idle `loop` body changes no program state and produces no
output. -/
theorem claim_C8_idle_loop (h : HW) :
    loop h = h ∧ (loop h).trace = h.trace :=
  ⟨rfl, rfl⟩

/-- C10: the heartbeat update in `onTimer` is an involution on the LED
level: two consecutive invocations restore the original level, and a single
invocation always changes it. -/
theorem claim_C10_toggle_involution (a b : Nat) (h : HW) :
    (onTimer b (onTimer a h)).pinLed = h.pinLed ∧
      (onTimer a h).pinLed ≠ h.pinLed := by
  constructor
  · rw [onTimer_pinLed, onTimer_pinLed, Bool.not_not]
  · rw [onTimer_pinLed]
    cases h.pinLed <;> simp

/-- C5: the consumer body never exits; each iteration first blocks on the
semaphore with the unbounded timeout `portMAX_DELAY`, and on wake it reads
the slot, converts it and emits exactly one line, with no other side
effect; when the semaphore is not signaled it blocks and does nothing
else. -/
theorem claim_C5_consumer_loop (h : HW) :
    (printValuesIter h).isSome = true ∧
    (h.sem.signaled = true →
      printValuesIter h = some { h with
        sem := { signaled := false, waiting := h.sem.waiting },
        trace := h.trace ++ [Ev.semTake portMAX_DELAY,
                             Ev.emitLine (fmt3 (voltOf h.val))] }) ∧
    (h.sem.signaled = false →
      printValuesIter h = some { h with
        sem := { signaled := false, waiting := true },
        trace := h.trace ++ [Ev.semTake portMAX_DELAY] }) := by
  refine ⟨?_, ?_, ?_⟩
  · cases hs : h.sem.signaled <;> simp [printValuesIter, hs]
  · intro hs
    simp [printValuesIter, hs]
  · intro hs
    simp [printValuesIter, hs]

/-- Witness for C5 at a concrete signaled state with slot value 2048. -/
theorem claim_C5_witness :
    printValuesIter ⟨true, 2048, ⟨true, false⟩, []⟩ =
      some ⟨true, 2048, ⟨false, false⟩,
        [Ev.semTake portMAX_DELAY, Ev.emitLine (fmt3 (voltOf 2048))]⟩ :=
  (claim_C5_consumer_loop ⟨true, 2048, ⟨true, false⟩, []⟩).2.1 rfl

/-- C6: a give on an already-signaled semaphore is a no-op; any nonempty
run of ISR invocations without an intervening take leaves exactly one
pending signal and the slot holding the most recent sample, the one
subsequent take succeeds and the consumer prints that most recent value,
and after it the semaphore is empty so a further take blocks. -/
theorem claim_C6_signal_coalescing (inputs : List Nat) (v : Nat) (h : HW)
    (hv : inputs.getLast? = some v) :
    (∀ s : Sem, s.signaled = true → s.waiting = false →
      xSemaphoreGiveFromISR s = (s, false)) ∧
    (runISR inputs h).val = v ∧
    (runISR inputs h).sem = { signaled := true, waiting := false } ∧
    (printValuesIter (runISR inputs h) = some { runISR inputs h with
      sem := { signaled := false, waiting := false },
      trace := (runISR inputs h).trace ++
        [Ev.semTake portMAX_DELAY, Ev.emitLine (fmt3 (voltOf v))] }) ∧
    (∀ h2 : HW, h2.sem.signaled = false →
      printValuesIter h2 = some { h2 with
        sem := { signaled := false, waiting := true },
        trace := h2.trace ++ [Ev.semTake portMAX_DELAY] }) := by
  obtain ⟨hval, hsem⟩ := runISR_getLast inputs v h hv
  refine ⟨?_, hval, hsem, ?_, ?_⟩
  · intro s h1 h2
    cases s
    simp_all [xSemaphoreGiveFromISR]
  · simp [printValuesIter, hsem, hval]
  · intro h2 hs
    simp [printValuesIter, hs]

/-- Witness for C6 on the run with ADC samples 3 then 5 from the initial
state: the slot ends holding 5, the most recent sample. -/
theorem claim_C6_witness :
    ([3, 5] : List Nat).getLast? = some 5 ∧
      (runISR [3, 5] ⟨false, 0, ⟨false, false⟩, []⟩).val = 5 :=
  ⟨by decide,
    (claim_C6_signal_coalescing [3, 5] 5 ⟨false, 0, ⟨false, false⟩, []⟩
      (by decide)).2.1⟩

/-- C3: the bring-up performs, in order: serial init, the stabilizing
pause, semaphore creation, consumer-task creation, LED pin configuration,
and the hardware-timer configuration, with the alarm enable as the very
last step — so the alarm is never armed before the semaphore and the task
exist. -/
theorem claim_C3_bringup_order :
    (setup true).findIdx isSerialBegin = 0 ∧
    (setup true).findIdx isSerialBegin < (setup true).findIdx isVTaskDelay ∧
    (setup true).findIdx isVTaskDelay < (setup true).findIdx isSemCreate ∧
    (setup true).findIdx isSemCreate < (setup true).findIdx isTaskCreate ∧
    (setup true).findIdx isTaskCreate < (setup true).findIdx isPinMode ∧
    (setup true).findIdx isPinMode < (setup true).findIdx isTimerBegin ∧
    (setup true).findIdx isTimerBegin < (setup true).findIdx isAlarmEnable ∧
    (setup true).findIdx isAlarmEnable = (setup true).length - 1 ∧
    (setup true).getLast? = some SetupEv.timerAlarmEnable := by
  decide

/-- C4: when semaphore creation fails, `setup` emits exactly one diagnostic
and restarts exactly once, the diagnostic precedes the restart, the restart
is the last thing that happens, and no task creation, pin configuration or
timer step runs; when creation succeeds, no diagnostic and no restart
occur. -/
theorem claim_C4_fatal_path :
    ((setup false).countP isErrPrintln = 1 ∧
     (setup false).countP isRestart = 1 ∧
     (setup false).findIdx isErrPrintln < (setup false).findIdx isRestart ∧
     (setup false).getLast? = some SetupEv.restart ∧
     (setup false).countP isTaskCreate = 0 ∧
     (setup false).countP isPinMode = 0 ∧
     (setup false).countP isTimerEv = 0) ∧
    ((setup true).countP isErrPrintln = 0 ∧
     (setup true).countP isRestart = 0) := by
  decide

/-- C7: the consumer task is created pinned to the application core, with
no parameters, at priority 2, strictly above the priority-1 loop task that
runs `setup`. -/
theorem claim_C7_task_pinning :
    printValuesTaskArgs.core = APP_CPU_NUM ∧
    printValuesTaskArgs.params = none ∧
    loopTaskPriority < printValuesTaskArgs.priority ∧
    SetupEv.taskCreate printValuesTaskArgs ∈ setup true := by
  decide

end Esp32TimerDemo
